import Mathlib

/-!
Shallow embedding of the UEFI Simple Network Protocol binding
(`src/uefi/src/proto/network/snp.rs`) and of the helpers module
(`src/uefi/src/helpers/mod.rs`), together with proofs of the spec claims.

Machine integers (`u64`, `u32`, `usize`) are embedded as `Nat`; where the
source reinterprets a 64-bit pattern, the view is taken explicitly with
`% 2 ^ 64`.  Raw pointers are embedded as `Nat` with `0` playing the role
of the null pointer; a Rust slice (`&[u8]` / `&mut [u8]`) is embedded as a
pair of its base pointer and its length, which is exactly what crosses the
FFI boundary (`as_ptr()` / `len()`).  Firmware is an external collaborator:
it is embedded as a structure of unconstrained functions, one per function
pointer of the protocol table, and each wrapper method additionally returns
the list of firmware calls it issues so that claims about which call is
made, and with which arguments, are stateable.
-/

/-- A UEFI status code (`Status` in the source crate), embedded as `Nat`.
`0` is `Status::SUCCESS`. -/
abbrev UefiStatus := Nat

/-- Modelled from the spec: the `Status -> Result` conversion
(`Result::from(status)` / `.into()`) lives in the status module of the
crate, which is not part of the source slice.  Spec section 7: a
firmware-reported failure (non-success status code) is surfaced to the
caller as a typed failure carrying the code, never silently swallowed. -/
def resultFrom (status : UefiStatus) : Except UefiStatus Unit :=
  if status = 0 then Except.ok () else Except.error status

/-- Embeds `MacAddress` (`MacAddress([u8; 32])`): a 32-byte hardware
address, carried opaquely by the binding. -/
structure MacAddress where
  bytes : List Nat
deriving DecidableEq, Repr

/-- Embeds a Rust slice reference as what the FFI boundary sees: the base
pointer (`as_ptr()`, a `Nat`, `0` = null) and the length (`len()`). -/
structure Slice where
  ptr : Nat
  len : Nat
deriving DecidableEq, Repr

/-- Embeds `InterruptStatus` (`#[repr(transparent)] struct InterruptStatus(u32)`):
a 32-bit bitmask of currently active interrupts. -/
structure InterruptStatus where
  val : Nat
deriving DecidableEq, Repr

/-- Embeds `InterruptStatus::new`: a value with all bits unset. -/
def InterruptStatus.new : InterruptStatus := ⟨0⟩

/-- Embeds `InterruptStatus::receive_interrupt`: `self.0 & 0x01 != 0`. -/
def InterruptStatus.receive_interrupt (s : InterruptStatus) : Bool :=
  s.val &&& 0x01 != 0

/-- Embeds `InterruptStatus::transmit_interrupt`: `self.0 & 0x02 != 0`. -/
def InterruptStatus.transmit_interrupt (s : InterruptStatus) : Bool :=
  s.val &&& 0x02 != 0

/-- Embeds `InterruptStatus::command_interrupt`: `self.0 & 0x04 != 0`. -/
def InterruptStatus.command_interrupt (s : InterruptStatus) : Bool :=
  s.val &&& 0x04 != 0

/-- Embeds `InterruptStatus::software_interrupt`: `self.0 & 0x08 != 0`. -/
def InterruptStatus.software_interrupt (s : InterruptStatus) : Bool :=
  s.val &&& 0x08 != 0

/-- Embeds `NetworkStats`: 26 unsigned 64-bit counters, `#[repr(C)]`,
field order as in the source. -/
structure NetworkStats where
  rx_total_frames : Nat
  rx_good_frames : Nat
  rx_undersize_frames : Nat
  rx_oversize_frames : Nat
  rx_dropped_frames : Nat
  rx_unicast_frames : Nat
  rx_broadcast_frames : Nat
  rx_multicast_frames : Nat
  rx_crc_error_frames : Nat
  rx_total_bytes : Nat
  tx_total_frames : Nat
  tx_good_frames : Nat
  tx_undersize_frames : Nat
  tx_oversize_frames : Nat
  tx_dropped_frames : Nat
  tx_unicast_frames : Nat
  tx_broadcast_frames : Nat
  tx_multicast_frames : Nat
  tx_crc_error_frames : Nat
  tx_total_bytes : Nat
  collisions : Nat
  unsupported_protocol : Nat
  rx_duplicated_frames : Nat
  rx_decrypt_error_frames : Nat
  tx_error_frames : Nat
  tx_retry_frames : Nat
deriving DecidableEq, Repr

/-- Embeds `Default::default()` for `NetworkStats` (`#[derive(Default)]`
on a struct of `u64` fields): every counter is zero. -/
def NetworkStats.defaultStats : NetworkStats :=
  ⟨0, 0, 0, 0, 0, 0, 0, 0, 0, 0, 0, 0, 0, 0, 0, 0, 0, 0, 0, 0, 0, 0, 0, 0, 0, 0⟩

/-- Embeds `core::mem::size_of::<NetworkStats>()`: 26 `u64` fields in a
`#[repr(C)]` struct, 8 bytes each. -/
def networkStatsByteSize : Nat := 26 * 8

/-- Embeds `NetworkStats::available`: `stat as i64 != -1`, i.e. the 64-bit
pattern of the counter is not all-ones.  The `% 2 ^ 64` takes the 64-bit
view of the `Nat` embedding a `u64`. -/
def NetworkStats.available (_s : NetworkStats) (stat : Nat) : Bool :=
  stat % 2 ^ 64 != 2 ^ 64 - 1

/-- Embeds `NetworkStats::to_option`: `Some(stat)` when available, `None`
when the counter holds the all-ones sentinel. -/
def NetworkStats.to_option (s : NetworkStats) (stat : Nat) : Option Nat :=
  match s.available stat with
  | true => some stat
  | false => none

/-- Embeds the accessor `NetworkStats::rx_total_frames`. -/
def NetworkStats.rx_total_framesOpt (s : NetworkStats) : Option Nat :=
  s.to_option s.rx_total_frames

/-- Embeds the accessor `NetworkStats::rx_good_frames`. -/
def NetworkStats.rx_good_framesOpt (s : NetworkStats) : Option Nat :=
  s.to_option s.rx_good_frames

/-- Embeds the accessor `NetworkStats::rx_undersize_frames`. -/
def NetworkStats.rx_undersize_framesOpt (s : NetworkStats) : Option Nat :=
  s.to_option s.rx_undersize_frames

/-- Embeds the accessor `NetworkStats::rx_oversize_frames`. -/
def NetworkStats.rx_oversize_framesOpt (s : NetworkStats) : Option Nat :=
  s.to_option s.rx_oversize_frames

/-- Embeds the accessor `NetworkStats::rx_dropped_frames`. -/
def NetworkStats.rx_dropped_framesOpt (s : NetworkStats) : Option Nat :=
  s.to_option s.rx_dropped_frames

/-- Embeds the accessor `NetworkStats::rx_unicast_frames`. -/
def NetworkStats.rx_unicast_framesOpt (s : NetworkStats) : Option Nat :=
  s.to_option s.rx_unicast_frames

/-- Embeds the accessor `NetworkStats::rx_broadcast_frames`. -/
def NetworkStats.rx_broadcast_framesOpt (s : NetworkStats) : Option Nat :=
  s.to_option s.rx_broadcast_frames

/-- Embeds the accessor `NetworkStats::rx_multicast_frames`. -/
def NetworkStats.rx_multicast_framesOpt (s : NetworkStats) : Option Nat :=
  s.to_option s.rx_multicast_frames

/-- Embeds the accessor `NetworkStats::rx_crc_error_frames`. -/
def NetworkStats.rx_crc_error_framesOpt (s : NetworkStats) : Option Nat :=
  s.to_option s.rx_crc_error_frames

/-- Embeds the accessor `NetworkStats::rx_total_bytes`. -/
def NetworkStats.rx_total_bytesOpt (s : NetworkStats) : Option Nat :=
  s.to_option s.rx_total_bytes

/-- Embeds the accessor `NetworkStats::tx_total_frames`. -/
def NetworkStats.tx_total_framesOpt (s : NetworkStats) : Option Nat :=
  s.to_option s.tx_total_frames

/-- Embeds the accessor `NetworkStats::tx_good_frames`. -/
def NetworkStats.tx_good_framesOpt (s : NetworkStats) : Option Nat :=
  s.to_option s.tx_good_frames

/-- Embeds the accessor `NetworkStats::tx_undersize_frames`. -/
def NetworkStats.tx_undersize_framesOpt (s : NetworkStats) : Option Nat :=
  s.to_option s.tx_undersize_frames

/-- Embeds the accessor `NetworkStats::tx_oversize_frames`. -/
def NetworkStats.tx_oversize_framesOpt (s : NetworkStats) : Option Nat :=
  s.to_option s.tx_oversize_frames

/-- Embeds the accessor `NetworkStats::tx_dropped_frames`. -/
def NetworkStats.tx_dropped_framesOpt (s : NetworkStats) : Option Nat :=
  s.to_option s.tx_dropped_frames

/-- Embeds the accessor `NetworkStats::tx_unicast_frames`. -/
def NetworkStats.tx_unicast_framesOpt (s : NetworkStats) : Option Nat :=
  s.to_option s.tx_unicast_frames

/-- Embeds the accessor `NetworkStats::tx_broadcast_frames`. -/
def NetworkStats.tx_broadcast_framesOpt (s : NetworkStats) : Option Nat :=
  s.to_option s.tx_broadcast_frames

/-- Embeds the accessor `NetworkStats::tx_multicast_frames`. -/
def NetworkStats.tx_multicast_framesOpt (s : NetworkStats) : Option Nat :=
  s.to_option s.tx_multicast_frames

/-- Embeds the accessor `NetworkStats::tx_crc_error_frames`. -/
def NetworkStats.tx_crc_error_framesOpt (s : NetworkStats) : Option Nat :=
  s.to_option s.tx_crc_error_frames

/-- Embeds the accessor `NetworkStats::tx_total_bytes`. -/
def NetworkStats.tx_total_bytesOpt (s : NetworkStats) : Option Nat :=
  s.to_option s.tx_total_bytes

/-- Embeds the accessor `NetworkStats::collisions`. -/
def NetworkStats.collisionsOpt (s : NetworkStats) : Option Nat :=
  s.to_option s.collisions

/-- Embeds the accessor `NetworkStats::unsupported_protocol`. -/
def NetworkStats.unsupported_protocolOpt (s : NetworkStats) : Option Nat :=
  s.to_option s.unsupported_protocol

/-- Embeds the accessor `NetworkStats::rx_duplicated_frames`. -/
def NetworkStats.rx_duplicated_framesOpt (s : NetworkStats) : Option Nat :=
  s.to_option s.rx_duplicated_frames

/-- Embeds the accessor `NetworkStats::rx_decrypt_error_frames`. -/
def NetworkStats.rx_decrypt_error_framesOpt (s : NetworkStats) : Option Nat :=
  s.to_option s.rx_decrypt_error_frames

/-- Embeds the accessor `NetworkStats::tx_error_frames`. -/
def NetworkStats.tx_error_framesOpt (s : NetworkStats) : Option Nat :=
  s.to_option s.tx_error_frames

/-- Embeds the accessor `NetworkStats::tx_retry_frames`. -/
def NetworkStats.tx_retry_framesOpt (s : NetworkStats) : Option Nat :=
  s.to_option s.tx_retry_frames

/-- Out-parameters of the `statistics` firmware function pointer: the
returned status together with the final contents of the two optional
cells the caller handed over (`stats_size: Option<&mut usize>`,
`stats_table: Option<&mut NetworkStats>`); `none` means the firmware left
the cell contents untouched. -/
structure StatisticsOut where
  status : UefiStatus
  stats_size_out : Option Nat
  stats_table_out : Option NetworkStats

/-- Out-parameters of the `get_status` firmware function pointer
(`interrupt_status: Option<&mut InterruptStatus>`,
`tx_buf: Option<&mut *mut c_void>`); `none` means the firmware left the
cell contents untouched. -/
structure GetStatusOut where
  status : UefiStatus
  interrupt_status_out : Option InterruptStatus
  tx_buf_out : Option Nat

/-- Out-parameters of the `receive` firmware function pointer: the status,
the always-present in/out `buffer_size: &mut usize` final value, and the
final contents of the optional cells. -/
structure ReceiveOut where
  status : UefiStatus
  header_size_out : Option Nat
  buffer_size_out : Nat
  src_addr_out : Option MacAddress
  dest_addr_out : Option MacAddress
  protocol_out : Option Nat

/-- Embeds the `SimpleNetwork` protocol table for the function pointers the
claims exercise.  Each `_fp` field is one `extern "efiapi"` function
pointer of the `#[repr(C)]` struct; the firmware behind it is
unconstrained.  `mcast_filter: Option<*const [MacAddress]>` is a fat
pointer to a slice, so it is embedded as the list of addresses it points
to (the fat pointer carries its own length). -/
structure SimpleNetwork where
  receive_filters_fp :
    Nat → Nat → Bool → Option Nat → Option (List MacAddress) → UefiStatus
  statistics_fp : Bool → Option Nat → Option NetworkStats → StatisticsOut
  get_status_fp : Option InterruptStatus → Option Nat → GetStatusOut
  transmit_fp :
    Nat → Nat → Nat → Option MacAddress → Option MacAddress → Option Nat →
      UefiStatus
  receive_fp :
    Option Nat → Nat → Nat → Option MacAddress → Option MacAddress →
      Option Nat → ReceiveOut

/-- A record of one firmware call issued by a wrapper method, with the
exact arguments passed across the FFI boundary. -/
inductive SnpCall
  | receiveFiltersCall (enable disable : Nat) (reset_mcast_filter : Bool)
      (mcast_filter_count : Option Nat)
      (mcast_filter : Option (List MacAddress))
  | statisticsCall (reset : Bool) (stats_size : Option Nat)
      (stats_table : Option NetworkStats)
  | getStatusCall (interrupt_status : Option InterruptStatus)
      (tx_buf : Option Nat)
  | transmitCall (header_size buffer_size buffer : Nat)
      (src_addr dest_addr : Option MacAddress) (protocol : Option Nat)
  | receiveCall (header_size : Option Nat) (buffer_size buffer : Nat)
      (src_addr dest_addr : Option MacAddress) (protocol : Option Nat)
deriving DecidableEq

/-- Embeds `SimpleNetwork::receive_filters`: forwards every argument to
the firmware function pointer and converts the returned status. -/
def SimpleNetwork.receive_filters (snp : SimpleNetwork) (enable disable : Nat)
    (reset_mcast_filter : Bool) (mcast_filter_count : Option Nat)
    (mcast_filter : Option (List MacAddress)) :
    List SnpCall × Except UefiStatus Unit :=
  ([SnpCall.receiveFiltersCall enable disable reset_mcast_filter
      mcast_filter_count mcast_filter],
   resultFrom (snp.receive_filters_fp enable disable reset_mcast_filter
      mcast_filter_count mcast_filter))

/-- Embeds `SimpleNetwork::reset_statistics`: calls the `statistics`
function pointer with `reset = true` and both optional cells absent. -/
def SimpleNetwork.reset_statistics (snp : SimpleNetwork) :
    List SnpCall × Except UefiStatus Unit :=
  ([SnpCall.statisticsCall true none none],
   resultFrom (snp.statistics_fp true none none).status)

/-- Embeds `SimpleNetwork::collect_statistics`: the destination table is
`Default::default()` (all zero), the size cell is
`size_of::<NetworkStats>()`, the `statistics` function pointer is called
with `reset = false` and both cells present; `Result::from(status)?`
propagates a failure, otherwise the (possibly firmware-overwritten) table
is returned. -/
def SimpleNetwork.collect_statistics (snp : SimpleNetwork) :
    List SnpCall × Except UefiStatus NetworkStats :=
  let stats_table := NetworkStats.defaultStats
  let stats_size := networkStatsByteSize
  let out := snp.statistics_fp false (some stats_size) (some stats_table)
  ([SnpCall.statisticsCall false (some stats_size) (some stats_table)],
   match resultFrom out.status with
   | Except.error e => Except.error e
   | Except.ok _ => Except.ok (out.stats_table_out.getD stats_table))

/-- Embeds `SimpleNetwork::get_interrupt_status`: the out-cell starts as
`InterruptStatus::new()`, the `get_status` function pointer is called with
the interrupt-status cell present and the `tx_buf` cell absent; on success
the final cell contents are returned. -/
def SimpleNetwork.get_interrupt_status (snp : SimpleNetwork) :
    List SnpCall × Except UefiStatus InterruptStatus :=
  let interrupt_status := InterruptStatus.new
  let out := snp.get_status_fp (some interrupt_status) none
  ([SnpCall.getStatusCall (some interrupt_status) none],
   match resultFrom out.status with
   | Except.error e => Except.error e
   | Except.ok _ => Except.ok (out.interrupt_status_out.getD interrupt_status))

/-- Embeds `SimpleNetwork::get_recycled_transmit_buffer_status`: the
`tx_buf` cell starts as `ptr::null_mut()` (0), the `get_status` function
pointer is called with the interrupt-status cell absent and the `tx_buf`
cell present; on success a null final pointer becomes `none` and a
non-null one becomes `some`. -/
def SimpleNetwork.get_recycled_transmit_buffer_status (snp : SimpleNetwork) :
    List SnpCall × Except UefiStatus (Option Nat) :=
  let tx_buf : Nat := 0
  let out := snp.get_status_fp none (some tx_buf)
  ([SnpCall.getStatusCall none (some tx_buf)],
   match resultFrom out.status with
   | Except.error e => Except.error e
   | Except.ok _ =>
     let final := out.tx_buf_out.getD tx_buf
     if final = 0 then Except.ok none else Except.ok (some final))

/-- Embeds `SimpleNetwork::transmit`: the firmware is passed
`buffer.len() + header_size` as the total buffer size, the buffer base
pointer, and the optional addresses and protocol unchanged. -/
def SimpleNetwork.transmit (snp : SimpleNetwork) (header_size : Nat)
    (buffer : Slice) (src_addr dest_addr : Option MacAddress)
    (protocol : Option Nat) : List SnpCall × Except UefiStatus Unit :=
  ([SnpCall.transmitCall header_size (buffer.len + header_size) buffer.ptr
      src_addr dest_addr protocol],
   resultFrom (snp.transmit_fp header_size (buffer.len + header_size)
      buffer.ptr src_addr dest_addr protocol))

/-- Embeds `SimpleNetwork::receive`: the in/out size cell starts as
`buffer.len()`, the firmware receives the buffer base pointer and the
optional cells unchanged; on success the final contents of the size cell
are returned. -/
def SimpleNetwork.receive (snp : SimpleNetwork) (buffer : Slice)
    (header_size : Option Nat) (src_addr dest_addr : Option MacAddress)
    (protocol : Option Nat) : List SnpCall × Except UefiStatus Nat :=
  let buffer_size := buffer.len
  let out := snp.receive_fp header_size buffer_size buffer.ptr src_addr
      dest_addr protocol
  ([SnpCall.receiveCall header_size buffer_size buffer.ptr src_addr
      dest_addr protocol],
   match resultFrom out.status with
   | Except.error e => Except.error e
   | Except.ok _ => Except.ok out.buffer_size_out)

/-- The execution phase of the process: boot services active (`preExit`)
or exited (`postExit`). -/
inductive Phase
  | preExit
  | postExit
deriving DecidableEq, Repr

/-- An abstract handle to the boot-services system table
(`SystemTable<Boot>`), identified opaquely. -/
structure SystemTableBoot where
  id : Nat
deriving DecidableEq, Repr

/-- The global state the `table` module tracks: the current phase and the
system table installed at entry. -/
structure GlobalTableState where
  phase : Phase
  table : SystemTableBoot
deriving DecidableEq, Repr

/-- Modelled from the spec: `table::system_table_boot` belongs to the
crate's `table` module, which is not part of the source slice.  Spec
section 4.4: the handle exposes accessors for protocol bindings only
while tagged PreExit; once the one-directional transition to PostExit has
happened, the boot system table is no longer obtainable. -/
def system_table_boot (s : GlobalTableState) : Option SystemTableBoot :=
  match s.phase with
  | Phase.preExit => some s.table
  | Phase.postExit => none

/-- Embeds `Option::expect(msg)`: the value when present, a panic carrying
`msg` when absent. -/
def expectOpt {α : Type} (o : Option α) (msg : String) : Except String α :=
  match o with
  | some a => Except.ok a
  | none => Except.error msg

/-- Embeds `helpers::system_table`:
`table::system_table_boot().expect("boot services are not active")`. -/
def system_table (s : GlobalTableState) : Except String SystemTableBoot :=
  expectOpt (system_table_boot s) "boot services are not active"

/-- The process-wide helper state: which system table, if any, the logger
and the global allocator are currently registered against. -/
structure HelpersState where
  logger_registered : Option Nat
  allocator_registered : Option Nat
deriving DecidableEq, Repr

/-- Modelled from the spec: `logger::init` lives in a feature-gated
submodule absent from the source slice.  Spec section 4.5: the helper
lifecycle registers the process-wide diagnostic sink against the supplied
system table at phase entry. -/
def loggerInit (st : SystemTableBoot) (s : HelpersState) : HelpersState :=
  { s with logger_registered := some st.id }

/-- Modelled from the spec: `allocator::init` lives in a feature-gated
submodule absent from the source slice.  Spec section 4.5: the helper
lifecycle registers the process-wide allocation service against the
supplied system table at phase entry. -/
def allocatorInit (st : SystemTableBoot) (s : HelpersState) : HelpersState :=
  { s with allocator_registered := some st.id }

/-- Embeds `helpers::init` (with the `logger` and `global_allocator`
features active): sets up logging, then memory allocation, and returns
`Ok(())` unconditionally. -/
def helpersInit (st : SystemTableBoot) (s : HelpersState) :
    HelpersState × Except UefiStatus Unit :=
  let s1 := loggerInit st s
  let s2 := allocatorInit st s1
  (s2, Except.ok ())

/-- A firmware instance that reports success everywhere and populates its
out-cells: the interrupt-status cell with pattern `0b0101`, the recycled
transmit buffer pointer with `7`, the receive size cell with `42`. -/
def fwOk : SimpleNetwork where
  receive_filters_fp := fun _ _ _ _ _ => 0
  statistics_fp := fun _ _ t => ⟨0, some networkStatsByteSize, t⟩
  get_status_fp := fun _ _ => ⟨0, some ⟨5⟩, some 7⟩
  transmit_fp := fun _ _ _ _ _ _ => 0
  receive_fp := fun _ _ _ _ _ _ => ⟨0, none, 42, none, none, none⟩

/-- A firmware instance that reports success everywhere and never writes
any optional out-cell. -/
def fwQuiet : SimpleNetwork where
  receive_filters_fp := fun _ _ _ _ _ => 0
  statistics_fp := fun _ _ _ => ⟨0, none, none⟩
  get_status_fp := fun _ _ => ⟨0, none, none⟩
  transmit_fp := fun _ _ _ _ _ _ => 0
  receive_fp := fun _ _ _ _ _ _ => ⟨0, none, 0, none, none, none⟩

/-- A firmware instance that fails every call with the error status
`2 ^ 63 + 5` (high bit set: the error range). -/
def fwErr : SimpleNetwork where
  receive_filters_fp := fun _ _ _ _ _ => 2 ^ 63 + 5
  statistics_fp := fun _ _ _ => ⟨2 ^ 63 + 5, none, none⟩
  get_status_fp := fun _ _ => ⟨2 ^ 63 + 5, none, none⟩
  transmit_fp := fun _ _ _ _ _ _ => 2 ^ 63 + 5
  receive_fp := fun _ _ _ _ _ _ => ⟨2 ^ 63 + 5, none, 0, none, none, none⟩

/-- A firmware instance whose `receive` reports success but writes a
length (100) larger than the supplied in/out size. -/
def fwBigRecv : SimpleNetwork where
  receive_filters_fp := fun _ _ _ _ _ => 0
  statistics_fp := fun _ _ _ => ⟨0, none, none⟩
  get_status_fp := fun _ _ => ⟨0, none, none⟩
  transmit_fp := fun _ _ _ _ _ _ => 0
  receive_fp := fun _ _ _ _ _ _ => ⟨0, none, 100, none, none, none⟩

/-- The all-zero 32-byte hardware address, used as a concrete input. -/
def mac0 : MacAddress := ⟨List.replicate 32 0⟩

/-- C1: for every `NetworkStats` counter accessor, a field holding the
all-ones 64-bit pattern (`-1` in a signed 64-bit view) yields `none`, and
any other pattern, including zero, yields `some` of exactly that value;
every accessor goes through the single sentinel check `to_option`. -/
theorem C1_network_stats_sentinel (s : NetworkStats) (stat : Nat) :
    NetworkStats.to_option s stat =
      (if stat % 2 ^ 64 = 2 ^ 64 - 1 then none else some stat) ∧
    NetworkStats.to_option s (2 ^ 64 - 1) = none ∧
    NetworkStats.to_option s 0 = some 0 ∧
    s.rx_total_framesOpt = s.to_option s.rx_total_frames ∧
    s.rx_good_framesOpt = s.to_option s.rx_good_frames ∧
    s.rx_undersize_framesOpt = s.to_option s.rx_undersize_frames ∧
    s.rx_oversize_framesOpt = s.to_option s.rx_oversize_frames ∧
    s.rx_dropped_framesOpt = s.to_option s.rx_dropped_frames ∧
    s.rx_unicast_framesOpt = s.to_option s.rx_unicast_frames ∧
    s.rx_broadcast_framesOpt = s.to_option s.rx_broadcast_frames ∧
    s.rx_multicast_framesOpt = s.to_option s.rx_multicast_frames ∧
    s.rx_crc_error_framesOpt = s.to_option s.rx_crc_error_frames ∧
    s.rx_total_bytesOpt = s.to_option s.rx_total_bytes ∧
    s.tx_total_framesOpt = s.to_option s.tx_total_frames ∧
    s.tx_good_framesOpt = s.to_option s.tx_good_frames ∧
    s.tx_undersize_framesOpt = s.to_option s.tx_undersize_frames ∧
    s.tx_oversize_framesOpt = s.to_option s.tx_oversize_frames ∧
    s.tx_dropped_framesOpt = s.to_option s.tx_dropped_frames ∧
    s.tx_unicast_framesOpt = s.to_option s.tx_unicast_frames ∧
    s.tx_broadcast_framesOpt = s.to_option s.tx_broadcast_frames ∧
    s.tx_multicast_framesOpt = s.to_option s.tx_multicast_frames ∧
    s.tx_crc_error_framesOpt = s.to_option s.tx_crc_error_frames ∧
    s.tx_total_bytesOpt = s.to_option s.tx_total_bytes ∧
    s.collisionsOpt = s.to_option s.collisions ∧
    s.unsupported_protocolOpt = s.to_option s.unsupported_protocol ∧
    s.rx_duplicated_framesOpt = s.to_option s.rx_duplicated_frames ∧
    s.rx_decrypt_error_framesOpt = s.to_option s.rx_decrypt_error_frames ∧
    s.tx_error_framesOpt = s.to_option s.tx_error_frames ∧
    s.tx_retry_framesOpt = s.to_option s.tx_retry_frames := by
  have hm : (2 ^ 64 - 1) % 2 ^ 64 = 2 ^ 64 - 1 :=
    Nat.mod_eq_of_lt (by norm_num)
  refine ⟨?_, ?_, ?_, rfl, rfl, rfl, rfl, rfl, rfl, rfl, rfl, rfl, rfl, rfl,
    rfl, rfl, rfl, rfl, rfl, rfl, rfl, rfl, rfl, rfl, rfl, rfl, rfl, rfl, rfl⟩
  · unfold NetworkStats.to_option NetworkStats.available
    by_cases h : stat % 2 ^ 64 = 2 ^ 64 - 1
    · rw [if_pos h, h]
      simp
    · rw [if_neg h, show (stat % 2 ^ 64 != 2 ^ 64 - 1) = true from by simpa using h]
  · unfold NetworkStats.to_option NetworkStats.available
    rw [show ((2 ^ 64 - 1) % 2 ^ 64 != 2 ^ 64 - 1) = false from by simp [hm]]
  · unfold NetworkStats.to_option NetworkStats.available
    rw [show ((0 : Nat) % 2 ^ 64 != 2 ^ 64 - 1) = true from by decide]

/-- C6: `InterruptStatus` decodes bit 0 as receive, bit 1 as transmit,
bit 2 as command and bit 3 as software interrupt; the pattern `0b0101`
reports receive and command true, transmit and software false, and
`0b0000` reports all four false. -/
theorem C6_interrupt_status_bits :
    (∀ n : Nat,
      (InterruptStatus.mk n).receive_interrupt = n.testBit 0 ∧
      (InterruptStatus.mk n).transmit_interrupt = n.testBit 1 ∧
      (InterruptStatus.mk n).command_interrupt = n.testBit 2 ∧
      (InterruptStatus.mk n).software_interrupt = n.testBit 3) ∧
    (InterruptStatus.mk 5).receive_interrupt = true ∧
    (InterruptStatus.mk 5).transmit_interrupt = false ∧
    (InterruptStatus.mk 5).command_interrupt = true ∧
    (InterruptStatus.mk 5).software_interrupt = false ∧
    (InterruptStatus.mk 0).receive_interrupt = false ∧
    (InterruptStatus.mk 0).transmit_interrupt = false ∧
    (InterruptStatus.mk 0).command_interrupt = false ∧
    (InterruptStatus.mk 0).software_interrupt = false := by
  have key : ∀ (n i : Nat), (n &&& 2 ^ i != 0) = n.testBit i := by
    intro n i
    rw [Nat.and_two_pow]
    cases h : n.testBit i
    · simp [h]
    · simp [h, (Nat.pow_pos (show (0 : Nat) < 2 by norm_num)).ne']
  refine ⟨?_, by decide, by decide, by decide, by decide, by decide,
    by decide, by decide, by decide⟩
  intro n
  refine ⟨?_, ?_, ?_, ?_⟩
  · have := key n 0
    norm_num at this
    simpa [InterruptStatus.receive_interrupt] using this
  · have := key n 1
    norm_num at this
    simpa [InterruptStatus.transmit_interrupt] using this
  · have := key n 2
    norm_num at this
    simpa [InterruptStatus.command_interrupt] using this
  · have := key n 3
    norm_num at this
    simpa [InterruptStatus.software_interrupt] using this

/-- C2 counterexample: calling `receive_filters` with
`mcast_filter_count = Some 5` while the supplied multicast list holds only
2 addresses does not fail: the firmware call is issued with exactly those
inconsistent arguments and the wrapper returns the converted firmware
status (`Ok` here), so no deterministic pre-call validation exists. -/
theorem C2_counterexample :
    (5 : Nat) ≠ List.length [mac0, mac0] ∧
    (SimpleNetwork.receive_filters fwOk 1 0 false (some 5)
        (some [mac0, mac0])).1 =
      [SnpCall.receiveFiltersCall 1 0 false (some 5) (some [mac0, mac0])] ∧
    (SimpleNetwork.receive_filters fwOk 1 0 false (some 5)
        (some [mac0, mac0])).2 = Except.ok () := by
  exact ⟨by decide, rfl, rfl⟩

/-- C2 (amended): `receive_filters` performs no validation at the safe
boundary: it always issues exactly one firmware call, forwarding `enable`,
`disable`, `reset_mcast_filter`, `mcast_filter_count` and `mcast_filter`
unchanged, and returns the converted firmware status. -/
theorem C2_receive_filters_forwards (snp : SimpleNetwork)
    (enable disable : Nat) (reset_mcast_filter : Bool)
    (mcast_filter_count : Option Nat)
    (mcast_filter : Option (List MacAddress)) :
    (snp.receive_filters enable disable reset_mcast_filter
        mcast_filter_count mcast_filter).1 =
      [SnpCall.receiveFiltersCall enable disable reset_mcast_filter
        mcast_filter_count mcast_filter] ∧
    (snp.receive_filters enable disable reset_mcast_filter
        mcast_filter_count mcast_filter).2 =
      resultFrom (snp.receive_filters_fp enable disable reset_mcast_filter
        mcast_filter_count mcast_filter) := by
  exact ⟨rfl, rfl⟩

/-- C3 counterexample: when the firmware reports success but writes `100`
into the in/out size cell of a 64-byte buffer, `receive` returns
`Ok(100)` with `100 > 64` — the wrapper does not bound the reported
length by the supplied capacity. -/
theorem C3_counterexample :
    (SimpleNetwork.receive fwBigRecv (Slice.mk 0 64) none none none
        none).2 = Except.ok 100 ∧
    ¬(100 ≤ 64) := by
  exact ⟨rfl, by decide⟩

/-- C3 (amended): `receive` passes `buffer.len()` as the in/out size
parameter and the buffer base pointer to the firmware; on a non-success
status it returns `Err` carrying that status and no length; on success it
returns `Ok(n)` where `n` is exactly the length the firmware reported
back, and `n ≤ buffer.len()` holds whenever the firmware reports a length
at most the supplied capacity (the wrapper itself adds no check). -/
theorem C3_receive_inout_size (snp : SimpleNetwork) (buffer : Slice)
    (header_size : Option Nat) (src_addr dest_addr : Option MacAddress)
    (protocol : Option Nat) :
    (snp.receive buffer header_size src_addr dest_addr protocol).1 =
      [SnpCall.receiveCall header_size buffer.len buffer.ptr src_addr
        dest_addr protocol] ∧
    ((snp.receive_fp header_size buffer.len buffer.ptr src_addr dest_addr
        protocol).status ≠ 0 →
      (snp.receive buffer header_size src_addr dest_addr protocol).2 =
        Except.error (snp.receive_fp header_size buffer.len buffer.ptr
          src_addr dest_addr protocol).status) ∧
    ((snp.receive_fp header_size buffer.len buffer.ptr src_addr dest_addr
        protocol).status = 0 →
      (snp.receive buffer header_size src_addr dest_addr protocol).2 =
        Except.ok (snp.receive_fp header_size buffer.len buffer.ptr
          src_addr dest_addr protocol).buffer_size_out) ∧
    ((snp.receive_fp header_size buffer.len buffer.ptr src_addr dest_addr
        protocol).status = 0 →
      (snp.receive_fp header_size buffer.len buffer.ptr src_addr dest_addr
        protocol).buffer_size_out ≤ buffer.len →
      ∀ n, (snp.receive buffer header_size src_addr dest_addr protocol).2 =
        Except.ok n → n ≤ buffer.len) := by
  refine ⟨rfl, ?_, ?_, ?_⟩
  · intro h
    simp [SimpleNetwork.receive, resultFrom, h]
  · intro h
    simp [SimpleNetwork.receive, resultFrom, h]
  · intro h hle n hn
    have h2 : (snp.receive buffer header_size src_addr dest_addr
        protocol).2 = Except.ok (snp.receive_fp header_size buffer.len
          buffer.ptr src_addr dest_addr protocol).buffer_size_out := by
      simp [SimpleNetwork.receive, resultFrom, h]
    rw [h2] at hn
    injection hn with hn
    rw [← hn]
    exact hle

/-- Witness for C3: on the concrete firmware `fwOk` and a 64-byte buffer,
the hypotheses hold (success status, reported length 42 ≤ 64) and
`receive` returns `Ok(42)` with `42 ≤ 64`. -/
theorem C3_receive_inout_size_witness :
    (fwOk.receive_fp none 64 0 none none none).status = 0 ∧
    (fwOk.receive_fp none 64 0 none none none).buffer_size_out ≤ 64 ∧
    (SimpleNetwork.receive fwOk (Slice.mk 0 64) none none none none).2 =
      Except.ok 42 ∧
    (42 : Nat) ≤ 64 := by
  have h := C3_receive_inout_size fwOk (Slice.mk 0 64) none none none none
  exact ⟨rfl, by decide, h.2.2.1 rfl, by decide⟩

/-- C5: `transmit` passes `buffer.len() + header_size` as the total
buffer size to the firmware transmit function pointer and forwards the
buffer pointer, source address, destination address and protocol
unchanged; in particular a 46-byte payload with `header_size = 14` is
issued with total size 60. -/
theorem C5_transmit_total_size (snp : SimpleNetwork) (header_size : Nat)
    (buffer : Slice) (src_addr dest_addr : Option MacAddress)
    (protocol : Option Nat) :
    (snp.transmit header_size buffer src_addr dest_addr protocol).1 =
      [SnpCall.transmitCall header_size (buffer.len + header_size)
        buffer.ptr src_addr dest_addr protocol] ∧
    (snp.transmit header_size buffer src_addr dest_addr protocol).2 =
      resultFrom (snp.transmit_fp header_size (buffer.len + header_size)
        buffer.ptr src_addr dest_addr protocol) ∧
    (snp.transmit 14 (Slice.mk buffer.ptr 46) src_addr dest_addr
        protocol).1 =
      [SnpCall.transmitCall 14 60 buffer.ptr src_addr dest_addr protocol] := by
  exact ⟨rfl, rfl, rfl⟩

/-- C4: `collect_statistics` pre-zeroes its destination structure, passes
exactly `size_of::<NetworkStats>()` by reference, and on a non-success
status returns `Err` carrying that status and no `NetworkStats` value;
`reset_statistics` calls the same underlying `statistics` function
pointer with `reset = true` and both optional out-parameters absent. -/
theorem C4_statistics_calls (snp : SimpleNetwork) :
    (snp.collect_statistics).1 =
      [SnpCall.statisticsCall false (some (26 * 8))
        (some ⟨0, 0, 0, 0, 0, 0, 0, 0, 0, 0, 0, 0, 0, 0, 0, 0, 0, 0, 0, 0,
          0, 0, 0, 0, 0, 0⟩)] ∧
    ((snp.statistics_fp false (some networkStatsByteSize)
        (some NetworkStats.defaultStats)).status ≠ 0 →
      (snp.collect_statistics).2 =
        Except.error (snp.statistics_fp false (some networkStatsByteSize)
          (some NetworkStats.defaultStats)).status) ∧
    (snp.reset_statistics).1 = [SnpCall.statisticsCall true none none] ∧
    (snp.reset_statistics).2 =
      resultFrom (snp.statistics_fp true none none).status := by
  refine ⟨rfl, ?_, rfl, rfl⟩
  intro h
  simp [SimpleNetwork.collect_statistics, resultFrom, h]

/-- Witness for C4: on the concrete failing firmware `fwErr` the
hypothesis holds and `collect_statistics` returns the error status
`2 ^ 63 + 5` rather than any statistics value. -/
theorem C4_statistics_calls_witness :
    (fwErr.statistics_fp false (some networkStatsByteSize)
        (some NetworkStats.defaultStats)).status ≠ 0 ∧
    (fwErr.collect_statistics).2 = Except.error (2 ^ 63 + 5) := by
  have h := C4_statistics_calls fwErr
  exact ⟨by decide, h.2.1 (by decide)⟩

/-- C7: `get_interrupt_status` and `get_recycled_transmit_buffer_status`
are both backed by the single `get_status` function pointer with two
independently optional out-parameters — the former requests only the
interrupt-status cell, the latter only the `tx_buf` cell — and on success
the recycled-buffer pointer is marshaled absent-as-null: a null pointer
yields `Ok(None)` and a non-null pointer `p` yields `Ok(Some p)`. -/
theorem C7_get_status_sharing (snp : SimpleNetwork) :
    (snp.get_interrupt_status).1 =
      [SnpCall.getStatusCall (some InterruptStatus.new) none] ∧
    (snp.get_recycled_transmit_buffer_status).1 =
      [SnpCall.getStatusCall none (some 0)] ∧
    ((snp.get_status_fp none (some 0)).status = 0 →
      (snp.get_status_fp none (some 0)).tx_buf_out.getD 0 = 0 →
      (snp.get_recycled_transmit_buffer_status).2 = Except.ok none) ∧
    (∀ p : Nat, (snp.get_status_fp none (some 0)).status = 0 →
      (snp.get_status_fp none (some 0)).tx_buf_out.getD 0 = p → p ≠ 0 →
      (snp.get_recycled_transmit_buffer_status).2 =
        Except.ok (some p)) := by
  refine ⟨rfl, rfl, ?_, ?_⟩
  · intro h h0
    simp [SimpleNetwork.get_recycled_transmit_buffer_status, resultFrom,
      h, h0]
  · intro p h hp hne
    simp [SimpleNetwork.get_recycled_transmit_buffer_status, resultFrom, h]
    rw [hp]
    simp [hne]

/-- Witness for C7: on the concrete firmware `fwOk` the hypotheses hold
(success, non-null recycled pointer 7) and the wrapper returns
`Ok(Some 7)`. -/
theorem C7_get_status_sharing_witness :
    (fwOk.get_status_fp none (some 0)).status = 0 ∧
    (fwOk.get_status_fp none (some 0)).tx_buf_out.getD 0 = 7 ∧
    (7 : Nat) ≠ 0 ∧
    (fwOk.get_recycled_transmit_buffer_status).2 = Except.ok (some 7) := by
  have h := C7_get_status_sharing fwOk
  exact ⟨rfl, rfl, by decide, h.2.2.2 7 rfl rfl (by decide)⟩

/-- C8: once the phase is PostExit, `helpers::system_table` fails
deterministically with the dedicated panic message rather than returning
a stale table; while the phase is PreExit it returns the installed
table. -/
theorem C8_phase_gated_system_table (s : GlobalTableState) :
    (s.phase = Phase.postExit →
      system_table s = Except.error "boot services are not active") ∧
    (s.phase = Phase.preExit → system_table s = Except.ok s.table) := by
  constructor <;> intro h <;>
    simp [system_table, system_table_boot, expectOpt, h]

/-- Witness for C8: in the concrete PostExit state the hypothesis holds
and `system_table` fails with the dedicated message. -/
theorem C8_phase_gated_system_table_witness :
    (GlobalTableState.mk Phase.postExit ⟨3⟩).phase = Phase.postExit ∧
    system_table (GlobalTableState.mk Phase.postExit ⟨3⟩) =
      Except.error "boot services are not active" := by
  have h := C8_phase_gated_system_table (GlobalTableState.mk Phase.postExit ⟨3⟩)
  exact ⟨rfl, h.1 rfl⟩

/-- C9: `helpers::init` always returns `Ok(())`, and a second call with
the same system table leaves the helper state exactly as a single call
does — re-entrant calls are harmless idempotent no-ops. -/
theorem C9_init_idempotent (st : SystemTableBoot) (s : HelpersState) :
    (helpersInit st (helpersInit st s).1).1 = (helpersInit st s).1 ∧
    (helpersInit st s).2 = Except.ok () ∧
    (helpersInit st (helpersInit st s).1).2 = Except.ok () := by
  exact ⟨rfl, rfl, rfl⟩

/-- C10: `InterruptStatus::new()` has all bits unset, so all four
accessors return false on it; `get_interrupt_status` hands exactly this
all-false value to the firmware as the initial contents of the out-cell,
and when a successful firmware call leaves the cell untouched the result
is still the all-false value. -/
theorem C10_new_all_unset (snp : SimpleNetwork) :
    InterruptStatus.new = InterruptStatus.mk 0 ∧
    InterruptStatus.new.receive_interrupt = false ∧
    InterruptStatus.new.transmit_interrupt = false ∧
    InterruptStatus.new.command_interrupt = false ∧
    InterruptStatus.new.software_interrupt = false ∧
    (snp.get_interrupt_status).1 =
      [SnpCall.getStatusCall (some InterruptStatus.new) none] ∧
    ((snp.get_status_fp (some InterruptStatus.new) none).status = 0 →
      (snp.get_status_fp (some InterruptStatus.new)
          none).interrupt_status_out = none →
      (snp.get_interrupt_status).2 = Except.ok InterruptStatus.new) := by
  refine ⟨rfl, by decide, by decide, by decide, by decide, rfl, ?_⟩
  intro h h0
  simp [SimpleNetwork.get_interrupt_status, resultFrom, h, h0]

/-- Witness for C10: on the concrete firmware `fwQuiet` (success, writes
nothing) the hypotheses hold and `get_interrupt_status` returns the
all-false `InterruptStatus::new()`. -/
theorem C10_new_all_unset_witness :
    (fwQuiet.get_status_fp (some InterruptStatus.new) none).status = 0 ∧
    (fwQuiet.get_status_fp (some InterruptStatus.new)
        none).interrupt_status_out = none ∧
    (fwQuiet.get_interrupt_status).2 = Except.ok InterruptStatus.new := by
  have h := C10_new_all_unset fwQuiet
  exact ⟨rfl, rfl, h.2.2.2.2.2.2 rfl rfl⟩
